import Mathlib

/-!
Formal model of the interactsh server startup path
(cmd/interactsh-server/main.go).

The startup is modelled as a pure function from the parsed command-line
configuration (`Config`) and the outcomes of the external fallible calls
(`Env`: the random source, server constructors, certificate issuance)
to a trace of startup events (`Event`), a process outcome (`Outcome`)
and the resulting `Store` state.
-/

set_option maxHeartbeats 1000000

/-- The subset of server.Options fields set by the flag definitions in main.go. -/
structure Options where
  domain : String
  ipAddress : String
  listenIP : String
  hostmaster : String
  auth : Bool
  token : String
  template : Bool
  originURL : String
  rootTLD : Bool
  deriving Repr, DecidableEq

/-- The full parsed flag set of main.go: the local flag variables plus Options. -/
structure Config where
  eviction : Int
  debug : Bool
  smb : Bool
  responder : Bool
  skipacme : Bool
  options : Options
  deriving Repr, DecidableEq

/-- Outcomes of the external calls main.go makes: rand.Read, the server
constructors, and certificate issuance. `randByte i` is byte i of the
buffer filled by a successful rand.Read (taken mod 256). -/
structure Env where
  randOk : Bool
  randByte : Nat → Nat
  dnsOk : Bool
  acmeOk : Bool
  acmeErr : String
  httpOk : Bool
  smtpOk : Bool
  responderOk : Bool
  smbOk : Bool

/-- The certificate handle produced by acme.NewAutomaticTLS, identified by the
arguments it was created from. -/
structure AutoTLS where
  hostmaster : String
  domains : String
  deriving Repr, DecidableEq

/-- Observable startup events of main.go, in program order. -/
inductive Event where
  | printError : Event
  | fatalMsg : String → Event
  | warning : String → Event
  | tokenGenerated : String → Event
  | storeCreated : Int → Event
  | setID : String → Event
  | dnsListen : Event
  | acmeCreated : String → String → Event
  | httpListen : Option AutoTLS → Event
  | smtpListen : Option AutoTLS → Event
  | responderListen : Event
  | smbListen : Event
  | logListening : Event
  deriving Repr, DecidableEq

/-- Process outcome of a startup run: os.Exit with a code, a gologger.Fatal
abort, or reaching the signal wait loop with all listeners running. -/
inductive Outcome where
  | exited : Nat → Outcome
  | fatal : Outcome
  | running : Outcome
  deriving Repr, DecidableEq

/-- Modelled from the spec: the storage package is not under src/. Per the
spec data model, the Store owns the bucket map and an eviction duration
fixed at construction; registerId pre-creates a bucket with a fixed id and
optional token, idempotently. Buckets are kept as an association list of
(id, optional auth token). -/
structure Store where
  evictionDuration : Int
  buckets : List (String × Option String)
  deriving Repr, DecidableEq

/-- Modelled from the spec: storage.New constructs a Store with the given
eviction duration and no buckets. -/
def storageNew (d : Int) : Store := ⟨d, []⟩

/-- Modelled from the spec: registerId pre-creates a bucket with a fixed id
and optional token, idempotent (an existing id is left unchanged). -/
def Store.registerId (s : Store) (id : String) (tok : Option String) : Store :=
  if (s.buckets.map Prod.fst).contains id then s
  else ⟨s.evictionDuration, s.buckets ++ [(id, tok)]⟩

/-- Modelled from the spec: Storage.SetID registers an unencrypted
(token-less) bucket under the given id. -/
def Store.setID (s : Store) (id : String) : Store :=
  s.registerId id none

/-- Token of the bucket registered under an id, if any: none at the outer
level means no such bucket, some none means an unencrypted bucket. -/
def Store.lookup (s : Store) (id : String) : Option (Option String) :=
  (s.buckets.find? (fun p => p.fst == id)).map Prod.snd

/-- Result of a modelled run of main: the event trace, the process outcome,
and the Store (none when startup aborted before storage.New). -/
structure RunResult where
  trace : List Event
  outcome : Outcome
  store : Option Store
  deriving Repr, DecidableEq

/-- Translation of shouldEnableAuth from main.go: auth is enabled when the
template flag, the responder or smb companion, the root-tld flag, or a
non-empty token is present. The auth flag itself is not consulted. -/
def shouldEnableAuth (options : Options) (smb responder : Bool) : Bool :=
  options.template || responder || smb || options.rootTLD || options.token != ""

/-- Lowercase hexadecimal digit for a value below 16, as produced by Go
encoding/hex. -/
def hexDigit (n : Nat) : Char :=
  if n < 10 then Char.ofNat (48 + n) else Char.ofNat (87 + n)

/-- Hex encoding of one byte: two lowercase hex digits, high nibble first. -/
def hexEncodeByte (b : Nat) : List Char :=
  [hexDigit (b / 16), hexDigit (b % 16)]

/-- Translation of hex.EncodeToString on a byte slice. -/
def hexEncodeToString (bs : List Nat) : String :=
  ⟨(bs.map hexEncodeByte).flatten⟩

/-- The 32-byte buffer filled by rand.Read in main.go, drawn from the
environment byte source. -/
def randBytes32 (env : Env) : List Nat :=
  (List.range 32).map (fun i => env.randByte i % 256)

/-- Signed 64-bit wraparound, as for Go int64 arithmetic. -/
def int64Wrap (n : Int) : Int :=
  (n + 2 ^ 63) % 2 ^ 64 - 2 ^ 63

/-- Translation of the eviction duration computation in main.go:
time.Duration(eviction) * time.Hour * 24, in nanoseconds, with int64
wraparound at each multiplication. -/
def evictionDuration (days : Int) : Int :=
  int64Wrap (int64Wrap (days * 3600000000000) * 24)

/-- Translation of strings.TrimSuffix: when the string ends with the suffix,
the suffix is removed, otherwise the string is returned unchanged. Stated
on the character-list representation of strings. -/
def trimSuffix (s suffix : String) : String :=
  if suffix.data.isSuffixOf s.data then
    ⟨s.data.take (s.data.length - suffix.data.length)⟩
  else s

/-- The domain-set string passed to acme.NewAutomaticTLS in main.go:
the wildcard and bare forms of the dot-trimmed domain. -/
def acmeDomains (domain : String) : String :=
  "*." ++ trimSuffix domain "." ++ "," ++ trimSuffix domain "."

/-- Translation of the hostmaster defaulting at the top of main.go:
an empty hostmaster becomes admin@ followed by the domain. -/
def applyHostmasterDefault (o : Options) : Options :=
  if o.hostmaster = "" then { o with hostmaster := "admin@" ++ o.domain } else o

/-- Translation of the token-generation block of main.go: when auth is
enabled and no token was supplied, 32 random bytes are drawn and
hex-encoded into the token; a failing rand.Read yields none (a fatal
abort); otherwise the supplied token is kept and no event is emitted. -/
def genToken (enableAuth : Bool) (token : String) (env : Env) : Option (String × List Event) :=
  if enableAuth && token == "" then
    if env.randOk then
      some (hexEncodeToString (randBytes32 env),
        [Event.tokenGenerated (hexEncodeToString (randBytes32 env))])
    else none
  else some (token, [])

/-- Companion-server block of main.go: the responder server, then the smb
server, each fatal on construction failure; then the final log line and
the signal wait loop. The trace lists only this block's own events. -/
def companionStage (cfg : Config) (env : Env) (st : Store) : RunResult :=
  if cfg.responder && !env.responderOk then
    ⟨[Event.fatalMsg "Could not create SMB server"], Outcome.fatal, some st⟩
  else if cfg.smb && !env.smbOk then
    ⟨(if cfg.responder then [Event.responderListen] else [])
      ++ [Event.fatalMsg "Could not create SMB server"], Outcome.fatal, some st⟩
  else
    ⟨(if cfg.responder then [Event.responderListen] else [])
      ++ (if cfg.smb then [Event.smbListen] else []) ++ [Event.logListening],
      Outcome.running, some st⟩

/-- HTTP and SMTP server block of main.go: each is fatal on construction
failure and is started with the autoTLS handle (none when absent). -/
def webStage (cfg : Config) (env : Env) (st : Store) (autoTLS : Option AutoTLS) : RunResult :=
  if !env.httpOk then
    ⟨[Event.fatalMsg "Could not create HTTP server"], Outcome.fatal, some st⟩
  else if !env.smtpOk then
    ⟨[Event.httpListen autoTLS, Event.fatalMsg "Could not create SMTP server"],
      Outcome.fatal, some st⟩
  else
    let r := companionStage cfg env st
    ⟨Event.httpListen autoTLS :: Event.smtpListen autoTLS :: r.trace, r.outcome, r.store⟩

/-- ACME block of main.go: unless skip-acme is set, acme.NewAutomaticTLS is
called with the hostmaster, the wildcard-and-bare domain string and the
TXT callback; failure only warns and leaves the handle nil. -/
def acmeStage (cfg : Config) (env : Env) (options : Options) (st : Store) : RunResult :=
  if !cfg.skipacme then
    if env.acmeOk then
      let r := webStage cfg env st (some ⟨options.hostmaster, acmeDomains options.domain⟩)
      ⟨Event.acmeCreated options.hostmaster (acmeDomains options.domain) :: r.trace,
        r.outcome, r.store⟩
    else
      let r := webStage cfg env st none
      ⟨Event.warning
          ("An error occurred while applying for an certificate, error: " ++ env.acmeErr)
        :: Event.warning "Could not generate certs for auto TLS, https will be disabled"
        :: r.trace, r.outcome, r.store⟩
  else
    webStage cfg env st none

/-- DNS server block of main.go: construction failure is fatal; on success
the DNS listener is started before the ACME block runs. -/
def dnsStage (cfg : Config) (env : Env) (options : Options) (st : Store) : RunResult :=
  if !env.dnsOk then
    ⟨[Event.fatalMsg "Could not create DNS server"], Outcome.fatal, some st⟩
  else
    let r := acmeStage cfg env options st
    ⟨Event.dnsListen :: r.trace, r.outcome, r.store⟩

/-- The Store value produced by the store block of main.go: storage.New
with the eviction duration, then SetID of the token when auth is enabled,
then SetID of the bare domain when root-tld is enabled. -/
def startupStore (cfg : Config) (options : Options) (enableAuth : Bool) : Store :=
  let st0 := storageNew (evictionDuration cfg.eviction)
  let st1 := if enableAuth then st0.setID options.token else st0
  if options.rootTLD then st1.setID options.domain else st1

/-- Store block of main.go: storage.New with the eviction duration, then
SetID of the token when auth is enabled, then SetID of the bare domain
when root-tld is enabled, then the DNS block. -/
def storeStage (cfg : Config) (env : Env) (options : Options) (enableAuth : Bool)
    (tokenEvents : List Event) : RunResult :=
  let r := dnsStage cfg env options (startupStore cfg options enableAuth)
  ⟨tokenEvents ++ [Event.storeCreated (evictionDuration cfg.eviction)]
      ++ (if enableAuth then [Event.setID options.token] else [])
      ++ (if options.rootTLD then [Event.setID options.domain] else [])
      ++ r.trace,
    r.outcome, r.store⟩

/-- Model of main.go after flag parsing: hostmaster defaulting, the
responder/smb mutual-exclusion exit, auth decision, token generation
(fatal on rand failure), then the store, DNS, ACME, web and companion
blocks in program order. -/
def runMain (cfg : Config) (env : Env) : RunResult :=
  let options := applyHostmasterDefault cfg.options
  if cfg.responder && cfg.smb then
    ⟨[Event.printError], Outcome.exited 1, none⟩
  else
    let enableAuth := shouldEnableAuth options cfg.smb cfg.responder
    match genToken enableAuth options.token env with
    | none => ⟨[Event.fatalMsg "Could not generate token"], Outcome.fatal, none⟩
    | some (token, tokenEvents) =>
        storeStage cfg env { options with token := token } enableAuth tokenEvents

/-- Modelled from the spec: the DNS server implementation (pkg/server) is
not under src/. Per the spec, the DNS listener owns a mutable TXT-record
cell and serves its current value for the zone TXT query type. Only the
TXT state matters here. -/
structure DNSServer where
  txtRecord : String
  deriving Repr, DecidableEq

/-- Modelled from the spec: the answer served for the next TXT query is the
current value of the TXT-record cell. -/
def DNSServer.answerTXT (s : DNSServer) : String :=
  s.txtRecord

/-- Translation of the callback closure main.go passes to
acme.NewAutomaticTLS: it assigns the challenge value to the live DNS
server TXT-record field. -/
def txtRecordCallback (dnsServer : DNSServer) (txt : String) : DNSServer :=
  { dnsServer with txtRecord := txt }

/-- Events that start a protocol listener. -/
def isListen : Event → Bool
  | Event.dnsListen => true
  | Event.httpListen _ => true
  | Event.smtpListen _ => true
  | Event.responderListen => true
  | Event.smbListen => true
  | _ => false

/-- Token-generation events. -/
def isTokenGen : Event → Bool
  | Event.tokenGenerated _ => true
  | _ => false

/-- Store-construction events. -/
def isStoreCreated : Event → Bool
  | Event.storeCreated _ => true
  | _ => false

/-- The anchor events whose relative order claim the startup ordering:
store construction, DNS listen, ACME creation, HTTP listen, SMTP listen. -/
def isAnchor : Event → Bool
  | Event.storeCreated _ => true
  | Event.dnsListen => true
  | Event.acmeCreated _ _ => true
  | Event.httpListen _ => true
  | Event.smtpListen _ => true
  | _ => false

/-- Events that the post-store stages may emit, with the ACME creation
pinned to the given options. Used to characterise stage traces. -/
def postStoreEvent (options : Options) : Event → Bool
  | Event.dnsListen => true
  | Event.httpListen _ => true
  | Event.smtpListen _ => true
  | Event.responderListen => true
  | Event.smbListen => true
  | Event.logListening => true
  | Event.fatalMsg _ => true
  | Event.warning _ => true
  | Event.acmeCreated hm d => hm == options.hostmaster && d == acmeDomains options.domain
  | _ => false

/-- Events that either start a listener or register the given domain id in
the Store, used to state that the domain registration precedes every
listener start. -/
def listenOrDomainReg (domain : String) : Event → Bool
  | Event.setID id => id == domain
  | e => isListen e

/-- The certificate handle available after the ACME block of main.go:
present exactly when acme registration was not skipped and issuance
succeeded; nil on skip-acme runs and on issuance failure. -/
def startupTLS (cfg : Config) (env : Env) (options : Options) : Option AutoTLS :=
  if !cfg.skipacme && env.acmeOk then
    some ⟨options.hostmaster, acmeDomains options.domain⟩
  else none

/-- The exact condition under which modelled startup aborts through a fatal
log call: token generation failure when a token is needed, or a failed
DNS, HTTP, SMTP, responder or smb server constructor. -/
def fatalCond (cfg : Config) (env : Env) : Bool :=
  (shouldEnableAuth cfg.options cfg.smb cfg.responder && (cfg.options.token == "")
      && !env.randOk)
    || !env.dnsOk || !env.httpOk || !env.smtpOk
    || (cfg.responder && !env.responderOk) || (cfg.smb && !env.smbOk)

/-- A representative parsed Options value with the flag defaults of main.go
and a concrete domain, used for concrete evaluations. -/
def baseOptions : Options :=
  { domain := "example.com", ipAddress := "", listenIP := "0.0.0.0", hostmaster := "",
    auth := false, token := "", template := false,
    originURL := "https://interact.projectdiscovery.io", rootTLD := false }

/-- A representative Config with the flag defaults of main.go. -/
def baseConfig : Config :=
  { eviction := 7, debug := false, smb := false, responder := false, skipacme := false,
    options := baseOptions }

/-- An environment in which every external call succeeds and the random
source yields zero bytes. -/
def baseEnv : Env :=
  { randOk := true, randByte := fun _ => 0, dnsOk := true, acmeOk := true, acmeErr := "",
    httpOk := true, smtpOk := true, responderOk := true, smbOk := true }

@[simp]
lemma applyHostmasterDefault_token (o : Options) :
    (applyHostmasterDefault o).token = o.token := by
  unfold applyHostmasterDefault; split <;> rfl

@[simp]
lemma applyHostmasterDefault_domain (o : Options) :
    (applyHostmasterDefault o).domain = o.domain := by
  unfold applyHostmasterDefault; split <;> rfl

@[simp]
lemma applyHostmasterDefault_rootTLD (o : Options) :
    (applyHostmasterDefault o).rootTLD = o.rootTLD := by
  unfold applyHostmasterDefault; split <;> rfl

@[simp]
lemma applyHostmasterDefault_template (o : Options) :
    (applyHostmasterDefault o).template = o.template := by
  unfold applyHostmasterDefault; split <;> rfl

@[simp]
lemma shouldEnableAuth_applyHostmasterDefault (o : Options) (smb responder : Bool) :
    shouldEnableAuth (applyHostmasterDefault o) smb responder =
      shouldEnableAuth o smb responder := by
  unfold applyHostmasterDefault shouldEnableAuth; split <;> rfl

lemma genToken_eq (enableAuth : Bool) (token : String) (env : Env)
    (h : env.randOk = true) :
    genToken enableAuth token env =
      some (if enableAuth && token == "" then hexEncodeToString (randBytes32 env) else token,
        if enableAuth && token == "" then
          [Event.tokenGenerated (hexEncodeToString (randBytes32 env))] else []) := by
  unfold genToken; split <;> simp [h]

@[simp]
lemma companionStage_store (cfg : Config) (env : Env) (st : Store) :
    (companionStage cfg env st).store = some st := by
  unfold companionStage
  split
  · rfl
  · split <;> rfl

@[simp]
lemma webStage_store (cfg : Config) (env : Env) (st : Store) (a : Option AutoTLS) :
    (webStage cfg env st a).store = some st := by
  unfold webStage
  split
  · rfl
  · split
    · rfl
    · simp

@[simp]
lemma acmeStage_store (cfg : Config) (env : Env) (options : Options) (st : Store) :
    (acmeStage cfg env options st).store = some st := by
  unfold acmeStage
  split
  · split <;> simp
  · simp

@[simp]
lemma dnsStage_store (cfg : Config) (env : Env) (options : Options) (st : Store) :
    (dnsStage cfg env options st).store = some st := by
  unfold dnsStage
  split
  · rfl
  · simp

lemma companionStage_outcome (cfg : Config) (env : Env) (st : Store) :
    (companionStage cfg env st).outcome =
      (if (cfg.responder && !env.responderOk) || (cfg.smb && !env.smbOk) then
        Outcome.fatal else Outcome.running) := by
  unfold companionStage
  rcases h1 : cfg.responder && !env.responderOk <;>
    rcases h2 : cfg.smb && !env.smbOk <;> simp [h1, h2]

lemma webStage_outcome (cfg : Config) (env : Env) (st : Store) (a : Option AutoTLS) :
    (webStage cfg env st a).outcome =
      (if !env.httpOk || !env.smtpOk
          || (cfg.responder && !env.responderOk) || (cfg.smb && !env.smbOk) then
        Outcome.fatal else Outcome.running) := by
  unfold webStage
  rcases h1 : env.httpOk <;> rcases h2 : env.smtpOk <;>
    simp [h1, h2, companionStage_outcome, Bool.or_assoc]

lemma acmeStage_outcome (cfg : Config) (env : Env) (options : Options) (st : Store) :
    (acmeStage cfg env options st).outcome =
      (if !env.httpOk || !env.smtpOk
          || (cfg.responder && !env.responderOk) || (cfg.smb && !env.smbOk) then
        Outcome.fatal else Outcome.running) := by
  unfold acmeStage
  split
  · split <;> simp [webStage_outcome]
  · simp [webStage_outcome]

lemma dnsStage_outcome (cfg : Config) (env : Env) (options : Options) (st : Store) :
    (dnsStage cfg env options st).outcome =
      (if !env.dnsOk || !env.httpOk || !env.smtpOk
          || (cfg.responder && !env.responderOk) || (cfg.smb && !env.smbOk) then
        Outcome.fatal else Outcome.running) := by
  unfold dnsStage
  rcases h1 : env.dnsOk <;> simp [h1, acmeStage_outcome]

lemma storeStage_outcome (cfg : Config) (env : Env) (options : Options)
    (enableAuth : Bool) (tokenEvents : List Event) :
    (storeStage cfg env options enableAuth tokenEvents).outcome =
      (if !env.dnsOk || !env.httpOk || !env.smtpOk
          || (cfg.responder && !env.responderOk) || (cfg.smb && !env.smbOk) then
        Outcome.fatal else Outcome.running) := by
  unfold storeStage
  simp [dnsStage_outcome]

lemma genToken_eq_none (enableAuth : Bool) (token : String) (env : Env) :
    genToken enableAuth token env = none ↔
      (enableAuth && (token == "") && !env.randOk) = true := by
  unfold genToken
  rcases h : enableAuth && token == "" <;> rcases hr : env.randOk <;> simp [h, hr]

lemma runMain_outcome (cfg : Config) (env : Env)
    (hx : (cfg.responder && cfg.smb) = false) :
    (runMain cfg env).outcome =
      (if fatalCond cfg env then Outcome.fatal else Outcome.running) := by
  unfold runMain
  rcases hg : genToken (shouldEnableAuth cfg.options cfg.smb cfg.responder)
      cfg.options.token env with _ | p
  · have h1 : (shouldEnableAuth cfg.options cfg.smb cfg.responder
        && (cfg.options.token == "") && !env.randOk) = true :=
      (genToken_eq_none _ _ env).mp hg
    simp [hx, hg, fatalCond, h1]
  · have h1 : (shouldEnableAuth cfg.options cfg.smb cfg.responder
        && (cfg.options.token == "") && !env.randOk) = false := by
      rcases hb : (shouldEnableAuth cfg.options cfg.smb cfg.responder
          && (cfg.options.token == "") && !env.randOk)
      · rfl
      · exact absurd ((genToken_eq_none _ _ env).mpr hb) (by simp [hg])
    obtain ⟨t, tes⟩ := p
    simp [hx, hg, storeStage_outcome, fatalCond, h1]

lemma runMain_eq_storeStage (cfg : Config) (env : Env)
    (hx : (cfg.responder && cfg.smb) = false) (t : String) (tes : List Event)
    (hg : genToken (shouldEnableAuth cfg.options cfg.smb cfg.responder)
      cfg.options.token env = some (t, tes)) :
    runMain cfg env = storeStage cfg env
      { applyHostmasterDefault cfg.options with token := t }
      (shouldEnableAuth cfg.options cfg.smb cfg.responder) tes := by
  unfold runMain
  simp [hx, hg]

lemma storeStage_trace (cfg : Config) (env : Env) (options : Options)
    (enableAuth : Bool) (tokenEvents : List Event) :
    (storeStage cfg env options enableAuth tokenEvents).trace =
      tokenEvents ++ [Event.storeCreated (evictionDuration cfg.eviction)]
        ++ (if enableAuth then [Event.setID options.token] else [])
        ++ (if options.rootTLD then [Event.setID options.domain] else [])
        ++ (dnsStage cfg env options (startupStore cfg options enableAuth)).trace := rfl

@[simp]
lemma storeStage_store (cfg : Config) (env : Env) (options : Options)
    (enableAuth : Bool) (tokenEvents : List Event) :
    (storeStage cfg env options enableAuth tokenEvents).store =
      some (startupStore cfg options enableAuth) := by
  unfold storeStage
  simp

lemma companionStage_all (cfg : Config) (env : Env) (st : Store) (options : Options) :
    (companionStage cfg env st).trace.all (postStoreEvent options) = true := by
  unfold companionStage
  rcases h1 : cfg.responder <;> rcases h2 : cfg.smb <;>
    rcases h3 : env.responderOk <;> rcases h4 : env.smbOk <;>
      simp [h1, h2, h3, h4, postStoreEvent]

lemma webStage_all (cfg : Config) (env : Env) (st : Store) (a : Option AutoTLS)
    (options : Options) :
    (webStage cfg env st a).trace.all (postStoreEvent options) = true := by
  unfold webStage
  rcases h1 : env.httpOk <;> rcases h2 : env.smtpOk <;>
    simp [h1, h2, postStoreEvent, companionStage_all]

lemma acmeStage_all (cfg : Config) (env : Env) (options : Options) (st : Store) :
    (acmeStage cfg env options st).trace.all (postStoreEvent options) = true := by
  unfold acmeStage
  rcases h1 : cfg.skipacme <;> rcases h2 : env.acmeOk <;>
    simp [h1, h2, postStoreEvent, webStage_all]

lemma dnsStage_all (cfg : Config) (env : Env) (options : Options) (st : Store) :
    (dnsStage cfg env options st).trace.all (postStoreEvent options) = true := by
  unfold dnsStage
  rcases h1 : env.dnsOk <;> simp [h1, postStoreEvent, acmeStage_all]

lemma postStoreEvent_not_storeCreated (options : Options) (e : Event)
    (h : postStoreEvent options e = true) : isStoreCreated e = false := by
  cases e <;> simp_all [postStoreEvent, isStoreCreated]

lemma postStoreEvent_not_tokenGen (options : Options) (e : Event)
    (h : postStoreEvent options e = true) : isTokenGen e = false := by
  cases e <;> simp_all [postStoreEvent, isTokenGen]

lemma postStoreEvent_not_setID (options : Options) (e : Event)
    (h : postStoreEvent options e = true) (id : String) : e ≠ Event.setID id := by
  cases e <;> simp_all [postStoreEvent]

lemma postStoreEvent_acme (options : Options) (hm d : String)
    (h : postStoreEvent options (Event.acmeCreated hm d) = true) :
    hm = options.hostmaster ∧ d = acmeDomains options.domain := by
  simp [postStoreEvent] at h
  exact h

lemma companionStage_anchors (cfg : Config) (env : Env) (st : Store) :
    (companionStage cfg env st).trace.filter isAnchor = [] := by
  unfold companionStage
  rcases h1 : cfg.responder <;> rcases h2 : cfg.smb <;>
    rcases h3 : env.responderOk <;> rcases h4 : env.smbOk <;>
      simp [h1, h2, h3, h4, isAnchor]

lemma webStage_anchors (cfg : Config) (env : Env) (st : Store) (a : Option AutoTLS)
    (h1 : env.httpOk = true) (h2 : env.smtpOk = true) :
    (webStage cfg env st a).trace.filter isAnchor =
      [Event.httpListen a, Event.smtpListen a] := by
  unfold webStage
  simp [h1, h2, isAnchor, List.filter_cons, companionStage_anchors]

lemma dnsStage_anchors_all (cfg : Config) (env : Env) (options : Options) (st : Store)
    (hdns : env.dnsOk = true) (hhttp : env.httpOk = true) (hsmtp : env.smtpOk = true) :
    (dnsStage cfg env options st).trace.filter isAnchor =
      Event.dnsListen
        :: ((if !cfg.skipacme && env.acmeOk then
              [Event.acmeCreated options.hostmaster (acmeDomains options.domain)]
            else [])
          ++ [Event.httpListen (startupTLS cfg env options),
              Event.smtpListen (startupTLS cfg env options)]) := by
  unfold dnsStage acmeStage startupTLS
  rcases hs : cfg.skipacme <;> rcases ha : env.acmeOk <;>
    simp [hdns, hs, ha, isAnchor, webStage_anchors cfg env st _ hhttp hsmtp]

lemma genToken_cases (enableAuth : Bool) (token : String) (env : Env)
    (t : String) (tes : List Event)
    (hg : genToken enableAuth token env = some (t, tes)) :
    ((enableAuth && (token == "")) = true ∧ env.randOk = true
        ∧ t = hexEncodeToString (randBytes32 env) ∧ tes = [Event.tokenGenerated t])
    ∨ ((enableAuth && (token == "")) = false ∧ t = token ∧ tes = []) := by
  unfold genToken at hg
  rcases h : enableAuth && token == "" <;> simp [h] at hg
  · right
    refine ⟨rfl, ?_, ?_⟩ <;> simp_all
  · rcases hr : env.randOk <;> simp [hr] at hg
    left
    exact ⟨rfl, rfl, hg.1.symm, by rw [← hg.2, hg.1]⟩

lemma postStoreEvent_token_update (o : Options) (t : String) (e : Event) :
    postStoreEvent { o with token := t } e = postStoreEvent o e := by
  cases e <;> rfl

lemma genToken_some_all (enableAuth : Bool) (token : String) (env : Env)
    (t : String) (tes : List Event)
    (hg : genToken enableAuth token env = some (t, tes)) :
    tes.all isTokenGen = true := by
  rcases genToken_cases enableAuth token env t tes hg with ⟨_, _, _, h⟩ | ⟨_, _, h⟩ <;>
    simp [h, isTokenGen]

lemma acmeCreated_mem_runMain (cfg : Config) (env : Env) (hm d : String)
    (he : Event.acmeCreated hm d ∈ (runMain cfg env).trace) :
    hm = (applyHostmasterDefault cfg.options).hostmaster ∧
      d = acmeDomains cfg.options.domain := by
  unfold runMain at he
  rcases hx : cfg.responder && cfg.smb <;> simp [hx] at he
  rcases hg : genToken (shouldEnableAuth cfg.options cfg.smb cfg.responder)
      cfg.options.token env with _ | ⟨t, tes⟩
  · simp [hg] at he
  · rw [hg] at he
    rw [storeStage_trace] at he
    simp only [List.mem_append] at he
    rcases he with (((hin | hin) | hin) | hin) | hin
    · have hall := genToken_some_all _ _ _ _ _ hg
      rw [List.all_eq_true] at hall
      exact absurd (hall _ hin) (by simp [isTokenGen])
    · simp at hin
    · rcases h : shouldEnableAuth cfg.options cfg.smb cfg.responder <;> simp [h] at hin
    · rcases h : cfg.options.rootTLD <;> simp [h] at hin
    · have hp := (List.all_eq_true.mp (dnsStage_all cfg env _ _)) _ hin
      have h2 := postStoreEvent_acme _ _ _ hp
      simpa using h2

lemma dnsStage_countP_tokenGen (cfg : Config) (env : Env) (options : Options)
    (st : Store) :
    (dnsStage cfg env options st).trace.countP isTokenGen = 0 := by
  rw [List.countP_eq_zero]
  intro e he
  have hp := (List.all_eq_true.mp (dnsStage_all cfg env options st)) e he
  simp [postStoreEvent_not_tokenGen options e hp]

lemma dnsStage_countP_storeCreated (cfg : Config) (env : Env) (options : Options)
    (st : Store) :
    (dnsStage cfg env options st).trace.countP isStoreCreated = 0 := by
  rw [List.countP_eq_zero]
  intro e he
  have hp := (List.all_eq_true.mp (dnsStage_all cfg env options st)) e he
  simp [postStoreEvent_not_storeCreated options e hp]

lemma hexEncodeToString_length (bs : List Nat) :
    (hexEncodeToString bs).length = 2 * bs.length := by
  unfold hexEncodeToString
  induction bs with
  | nil => rfl
  | cons b bs ih =>
      simp only [List.map_cons, List.flatten_cons, String.length] at *
      simp [hexEncodeByte] at *
      omega

lemma startupStore_lookup_token (cfg : Config) (options : Options) :
    (startupStore cfg options true).lookup options.token = some none := by
  unfold startupStore storageNew Store.setID Store.registerId Store.lookup
  rcases h : options.rootTLD <;>
    by_cases hd : options.domain == options.token <;>
      simp_all [List.find?]

lemma registerId_evictionDuration (s : Store) (id : String) (tok : Option String) :
    (s.registerId id tok).evictionDuration = s.evictionDuration := by
  unfold Store.registerId
  split <;> rfl

lemma startupStore_evictionDuration (cfg : Config) (options : Options) (ea : Bool) :
    (startupStore cfg options ea).evictionDuration = evictionDuration cfg.eviction := by
  unfold startupStore Store.setID storageNew
  rcases ea <;> rcases h : options.rootTLD <;> simp [h, registerId_evictionDuration]

lemma int64Wrap_eq_of_bounds (n : Int) (h1 : -(2 ^ 63) ≤ n) (h2 : n < 2 ^ 63) :
    int64Wrap n = n := by
  unfold int64Wrap
  omega

lemma startupStore_lookup_domain (cfg : Config) (options : Options) (ea : Bool)
    (hroot : options.rootTLD = true) :
    (startupStore cfg options ea).lookup options.domain = some none := by
  unfold startupStore storageNew Store.setID Store.registerId Store.lookup
  rcases ea
  · simp [hroot, List.find?]
  · by_cases ht : options.domain = options.token
    · simp [hroot, ht, List.find?]
    · have ht2 : (options.token == options.domain) = false := by
        simp [beq_eq_false_iff_ne]
        exact fun h => ht h.symm
      simp [hroot, ht, ht2, List.find?]

lemma dnsStage_trace_acmefail (cfg : Config) (env : Env) (options : Options)
    (st : Store) (hdns : env.dnsOk = true) (hskip : cfg.skipacme = false)
    (hacme : env.acmeOk = false) (hhttp : env.httpOk = true) (hsmtp : env.smtpOk = true) :
    (dnsStage cfg env options st).trace =
      Event.dnsListen
        :: Event.warning
            ("An error occurred while applying for an certificate, error: " ++ env.acmeErr)
        :: Event.warning "Could not generate certs for auto TLS, https will be disabled"
        :: Event.httpListen none :: Event.smtpListen none
        :: (companionStage cfg env st).trace := by
  unfold dnsStage acmeStage webStage
  simp [hdns, hskip, hacme, hhttp, hsmtp]

/-- C1: for every configuration, authentication is enabled if and only if
template upload is enabled, the smb companion is active, the responder
companion is active, root-TLD mode is active, or a non-empty token was
supplied; no other flag (in particular not the auth flag itself) enters
the decision. -/
theorem auth_enabled_iff (o : Options) (smb responder : Bool) :
    shouldEnableAuth o smb responder = true ↔
      (o.template = true ∨ smb = true ∨ responder = true ∨ o.rootTLD = true
        ∨ o.token ≠ "") := by
  unfold shouldEnableAuth
  simp [bne_iff_ne]
  tauto

/-- C4: assigning a new DNS-01 challenge value through the callback handed to
the ACME coordinator makes the new value the answer served for the very
next TXT query, and every state of the update (the pre-state and the
post-state) serves the old value or the new value, so there is no window
in which both are absent. -/
theorem txt_update_visible (s : DNSServer) (v : String) :
    (txtRecordCallback s v).answerTXT = v ∧
      (∀ u ∈ [s, txtRecordCallback s v],
        u.answerTXT = s.answerTXT ∨ u.answerTXT = v) := by
  refine ⟨rfl, ?_⟩
  intro u hu
  simp only [List.mem_cons, List.not_mem_nil, or_false] at hu
  rcases hu with h | h
  · subst h
    exact Or.inl rfl
  · subst h
    exact Or.inr rfl

theorem txt_update_visible_witness :
    (txtRecordCallback ⟨"old"⟩ "new").answerTXT = "new" ∧
      ((txtRecordCallback ⟨"old"⟩ "new").answerTXT =
          (DNSServer.mk "old").answerTXT ∨
        (txtRecordCallback ⟨"old"⟩ "new").answerTXT = "new") :=
  ⟨(txt_update_visible ⟨"old"⟩ "new").1,
    (txt_update_visible ⟨"old"⟩ "new").2 _ (by simp)⟩

/-- C7: on every run whose required constructors succeed, the anchor events
of the startup trace are, in order: exactly one Store construction, then
the DNS listener start, then — unless acme was skipped or issuance failed
— the ACME coordinator creation (against the already running DNS
listener), then the HTTP listener start and the SMTP listener start, the
last two receiving the same certificate handle (nil on skip-acme and on
issuance failure); the single Store constructed first is the one handed
on to the rest of startup. -/
theorem startup_order (cfg : Config) (env : Env)
    (hx : (cfg.responder && cfg.smb) = false) (hrand : env.randOk = true)
    (hdns : env.dnsOk = true) (hhttp : env.httpOk = true)
    (hsmtp : env.smtpOk = true) :
    (runMain cfg env).trace.filter isAnchor =
      [Event.storeCreated (evictionDuration cfg.eviction), Event.dnsListen]
        ++ (if !cfg.skipacme && env.acmeOk then
              [Event.acmeCreated (applyHostmasterDefault cfg.options).hostmaster
                (acmeDomains cfg.options.domain)]
            else [])
        ++ [Event.httpListen (startupTLS cfg env (applyHostmasterDefault cfg.options)),
            Event.smtpListen (startupTLS cfg env (applyHostmasterDefault cfg.options))] ∧
      (∃ st, (runMain cfg env).store = some st ∧
        st.evictionDuration = evictionDuration cfg.eviction) := by
  have hg := genToken_eq (shouldEnableAuth cfg.options cfg.smb cfg.responder)
    cfg.options.token env hrand
  have hr := runMain_eq_storeStage cfg env hx _ _ hg
  constructor
  · rw [hr, storeStage_trace]
    simp only [List.filter_append]
    rw [dnsStage_anchors_all _ _ _ _ hdns hhttp hsmtp]
    rcases htok : shouldEnableAuth cfg.options cfg.smb cfg.responder
        && (cfg.options.token == "") <;>
      rcases h1 : shouldEnableAuth cfg.options cfg.smb cfg.responder <;>
        rcases h2 : cfg.options.rootTLD <;>
          rcases hs : cfg.skipacme <;> rcases ha : env.acmeOk <;>
            simp [htok, h1, h2, hs, ha, isAnchor, startupTLS]
  · rw [hr, storeStage_store]
    exact ⟨_, rfl, startupStore_evictionDuration cfg _ _⟩

theorem startup_order_witness :
    ((runMain { baseConfig with skipacme := true } baseEnv).trace.filter isAnchor =
      [Event.storeCreated (evictionDuration { baseConfig with skipacme := true }.eviction),
        Event.dnsListen]
        ++ (if !({ baseConfig with skipacme := true } : Config).skipacme && baseEnv.acmeOk then
              [Event.acmeCreated
                (applyHostmasterDefault { baseConfig with skipacme := true }.options).hostmaster
                (acmeDomains { baseConfig with skipacme := true }.options.domain)]
            else [])
        ++ [Event.httpListen (startupTLS { baseConfig with skipacme := true } baseEnv
              (applyHostmasterDefault { baseConfig with skipacme := true }.options)),
            Event.smtpListen (startupTLS { baseConfig with skipacme := true } baseEnv
              (applyHostmasterDefault { baseConfig with skipacme := true }.options))]) ∧
      (∃ st, (runMain { baseConfig with skipacme := true } baseEnv).store = some st ∧
        st.evictionDuration = evictionDuration { baseConfig with skipacme := true }.eviction) :=
  startup_order { baseConfig with skipacme := true } baseEnv rfl rfl rfl rfl rfl

/-- C8 (amended): once past the responder/smb mutual-exclusion check, the
modelled startup aborts fatally exactly when token generation fails while
a token is needed, or the DNS, HTTP, SMTP, responder (when requested) or
smb (when requested) server constructor fails; otherwise it reaches the
running state. In particular an ACME failure never aborts, but contrary
to the original claim a responder or smb server constructor failure does. -/
theorem fatal_startup_errors (cfg : Config) (env : Env)
    (hx : (cfg.responder && cfg.smb) = false) :
    ((runMain cfg env).outcome = Outcome.fatal ↔ fatalCond cfg env = true) ∧
      ((runMain cfg env).outcome = Outcome.running ↔ fatalCond cfg env = false) := by
  rw [runMain_outcome cfg env hx]
  rcases h : fatalCond cfg env <;> simp [h]

theorem fatal_startup_errors_witness :
    ((runMain baseConfig { baseEnv with dnsOk := false }).outcome = Outcome.fatal ↔
        fatalCond baseConfig { baseEnv with dnsOk := false } = true) ∧
      ((runMain baseConfig { baseEnv with dnsOk := false }).outcome = Outcome.running ↔
        fatalCond baseConfig { baseEnv with dnsOk := false } = false) :=
  fatal_startup_errors baseConfig { baseEnv with dnsOk := false } rfl

/-- C8 counterexample: with the responder companion requested, a supplied
token, and only the responder server constructor failing — the random
source, DNS, HTTP and SMTP all succeeding — the process still aborts
fatally, refuting the claim that no startup error other than token
generation or the DNS, HTTP or SMTP constructors aborts the process. -/
theorem fatal_startup_errors_counterexample :
    (runMain
        { baseConfig with
            responder := true,
            options := { baseOptions with token := "secret" } }
        { baseEnv with responderOk := false }).outcome = Outcome.fatal ∧
      ({ baseEnv with responderOk := false } : Env).randOk = true ∧
      ({ baseEnv with responderOk := false } : Env).dnsOk = true ∧
      ({ baseEnv with responderOk := false } : Env).httpOk = true ∧
      ({ baseEnv with responderOk := false } : Env).smtpOk = true := by
  refine ⟨?_, rfl, rfl, rfl, rfl⟩
  decide

/-- C9: when both the responder and the smb companions are requested,
startup prints an error and exits with code 1 before creating the Store
or starting any listener. -/
theorem responder_smb_mutual_exclusion (cfg : Config) (env : Env)
    (h1 : cfg.responder = true) (h2 : cfg.smb = true) :
    runMain cfg env = ⟨[Event.printError], Outcome.exited 1, none⟩ ∧
      (runMain cfg env).store = none ∧
      (∀ e ∈ (runMain cfg env).trace, isListen e = false ∧ isStoreCreated e = false) := by
  have hr : runMain cfg env = ⟨[Event.printError], Outcome.exited 1, none⟩ := by
    unfold runMain
    simp [h1, h2]
  refine ⟨hr, by rw [hr], ?_⟩
  rw [hr]
  intro e he
  simp only [List.mem_cons, List.not_mem_nil, or_false] at he
  subst he
  exact ⟨rfl, rfl⟩

lemma tokenGen_countP_storeCreated (tes : List Event) (h : tes.all isTokenGen = true) :
    tes.countP isStoreCreated = 0 := by
  rw [List.countP_eq_zero]
  intro e he
  have := (List.all_eq_true.mp h) e he
  cases e <;> simp_all [isTokenGen, isStoreCreated]

lemma storeCreated_mem_runMain (cfg : Config) (env : Env) (d : Int)
    (he : Event.storeCreated d ∈ (runMain cfg env).trace) :
    d = evictionDuration cfg.eviction := by
  unfold runMain at he
  rcases hx : cfg.responder && cfg.smb <;> simp [hx] at he
  rcases hg : genToken (shouldEnableAuth cfg.options cfg.smb cfg.responder)
      cfg.options.token env with _ | ⟨t, tes⟩
  · simp [hg] at he
  · rw [hg] at he
    rw [storeStage_trace] at he
    simp only [List.mem_append] at he
    rcases he with (((hin | hin) | hin) | hin) | hin
    · have hall := genToken_some_all _ _ _ _ _ hg
      rw [List.all_eq_true] at hall
      exact absurd (hall _ hin) (by simp [isTokenGen])
    · simpa using hin
    · rcases h : shouldEnableAuth cfg.options cfg.smb cfg.responder <;> simp [h] at hin
    · rcases h : cfg.options.rootTLD <;> simp [h] at hin
    · have hp := (List.all_eq_true.mp (dnsStage_all cfg env _ _)) _ hin
      exact absurd (postStoreEvent_not_storeCreated _ _ hp) (by simp [isStoreCreated])

lemma runMain_countP_storeCreated_one (cfg : Config) (env : Env) (t : String)
    (tes : List Event)
    (hg : genToken (shouldEnableAuth cfg.options cfg.smb cfg.responder)
      cfg.options.token env = some (t, tes))
    (hx : (cfg.responder && cfg.smb) = false) :
    (runMain cfg env).trace.countP isStoreCreated = 1 := by
  rw [runMain_eq_storeStage cfg env hx t tes hg, storeStage_trace]
  simp only [List.countP_append, dnsStage_countP_storeCreated]
  rw [tokenGen_countP_storeCreated tes (genToken_some_all _ _ _ _ _ hg)]
  rcases h1 : shouldEnableAuth cfg.options cfg.smb cfg.responder <;>
    rcases h2 : cfg.options.rootTLD <;>
      simp [h1, h2, isStoreCreated, List.countP_cons]

/-- C3 (amended): for every configuration, every Store construction on the
startup path uses the duration eviction times 24 hours computed in int64
arithmetic; the Store is constructed at most once, and exactly once
whenever startup passes the mutual-exclusion check with a working random
source, its eviction duration never changing afterwards; the computed
duration equals the mathematical N times 24 hours exactly when the
configured day count N satisfies natAbs N at most 106751 (no int64
overflow). -/
theorem eviction_duration_fixed (cfg : Config) (env : Env) :
    (∀ d, Event.storeCreated d ∈ (runMain cfg env).trace →
        d = evictionDuration cfg.eviction) ∧
      (runMain cfg env).trace.countP isStoreCreated ≤ 1 ∧
      ((cfg.responder && cfg.smb) = false → env.randOk = true →
        ((runMain cfg env).trace.countP isStoreCreated = 1 ∧
          ∃ st, (runMain cfg env).store = some st ∧
            st.evictionDuration = evictionDuration cfg.eviction)) ∧
      (cfg.eviction.natAbs ≤ 106751 →
        evictionDuration cfg.eviction = cfg.eviction * 86400000000000) := by
  refine ⟨fun d hd => storeCreated_mem_runMain cfg env d hd, ?_, ?_, ?_⟩
  · rcases hx : cfg.responder && cfg.smb
    · rcases hg : genToken (shouldEnableAuth cfg.options cfg.smb cfg.responder)
          cfg.options.token env with _ | ⟨t, tes⟩
      · unfold runMain
        simp [hx, hg, isStoreCreated]
      · rw [runMain_countP_storeCreated_one cfg env t tes hg hx]
    · unfold runMain
      simp [hx, isStoreCreated]
  · intro hx hrand
    have hg := genToken_eq (shouldEnableAuth cfg.options cfg.smb cfg.responder)
      cfg.options.token env hrand
    refine ⟨runMain_countP_storeCreated_one cfg env _ _ hg hx, ?_⟩
    rw [runMain_eq_storeStage cfg env hx _ _ hg, storeStage_store]
    exact ⟨_, rfl, startupStore_evictionDuration cfg _ _⟩
  · intro h
    unfold evictionDuration int64Wrap
    omega

theorem eviction_duration_fixed_witness :
    ((runMain baseConfig baseEnv).trace.countP isStoreCreated = 1 ∧
      ∃ st, (runMain baseConfig baseEnv).store = some st ∧
        st.evictionDuration = evictionDuration baseConfig.eviction) ∧
      evictionDuration baseConfig.eviction = baseConfig.eviction * 86400000000000 :=
  ⟨(eviction_duration_fixed baseConfig baseEnv).2.2.1 rfl rfl,
    (eviction_duration_fixed baseConfig baseEnv).2.2.2 (by decide)⟩

/-- C3 counterexample: with an eviction value of 2 to the 50 days, the Store
construction event on the trace carries the int64-wrapped duration, which
differs from 2 to the 50 times 24 hours, refuting the claim read over
unbounded integers. -/
theorem eviction_duration_overflow_counterexample :
    Event.storeCreated (evictionDuration (2 ^ 50)) ∈
        (runMain { baseConfig with eviction := 2 ^ 50 } baseEnv).trace ∧
      evictionDuration (2 ^ 50) ≠ 2 ^ 50 * 86400000000000 := by
  constructor
  · decide
  · decide

/-- C2: when authentication is mandatory and the supplied token is empty,
startup generates exactly one token, equal to the hex encoding of the 32
random bytes drawn from the random source (64 hex characters, 256 bits of
entropy), and registers it in the Store; when a non-empty token is
supplied, no token is generated and the supplied token is registered
instead. -/
theorem token_generation (cfg : Config) (env : Env)
    (hx : (cfg.responder && cfg.smb) = false)
    (hauth : shouldEnableAuth cfg.options cfg.smb cfg.responder = true) :
    (cfg.options.token = "" → env.randOk = true →
      ((runMain cfg env).trace.countP isTokenGen = 1 ∧
        Event.tokenGenerated (hexEncodeToString (randBytes32 env)) ∈ (runMain cfg env).trace ∧
        (hexEncodeToString (randBytes32 env)).length = 64 ∧
        Event.setID (hexEncodeToString (randBytes32 env)) ∈ (runMain cfg env).trace ∧
        (∃ st, (runMain cfg env).store = some st ∧
          st.lookup (hexEncodeToString (randBytes32 env)) = some none))) ∧
    (cfg.options.token ≠ "" →
      ((runMain cfg env).trace.countP isTokenGen = 0 ∧
        Event.setID cfg.options.token ∈ (runMain cfg env).trace ∧
        (∃ st, (runMain cfg env).store = some st ∧
          st.lookup cfg.options.token = some none))) := by
  constructor
  · intro htok hrand
    have hg : genToken (shouldEnableAuth cfg.options cfg.smb cfg.responder)
        cfg.options.token env =
        some (hexEncodeToString (randBytes32 env),
          [Event.tokenGenerated (hexEncodeToString (randBytes32 env))]) := by
      unfold genToken
      simp [hauth, htok, hrand]
    have hr := runMain_eq_storeStage cfg env hx _ _ hg
    rw [hr, storeStage_trace]
    refine ⟨?_, ?_, ?_, ?_, ?_⟩
    · simp only [List.countP_append, dnsStage_countP_tokenGen, hauth]
      rcases h2 : cfg.options.rootTLD <;>
        simp [h2, isTokenGen, List.countP_cons, List.countP_nil]
    · simp
    · rw [hexEncodeToString_length]
      rfl
    · simp [hauth]
    · rw [storeStage_store]
      refine ⟨_, rfl, ?_⟩
      have := startupStore_lookup_token cfg
        { applyHostmasterDefault cfg.options with token := hexEncodeToString (randBytes32 env) }
      simp only [hauth]
      simpa using this
  · intro htok
    have hg : genToken (shouldEnableAuth cfg.options cfg.smb cfg.responder)
        cfg.options.token env = some (cfg.options.token, []) := by
      unfold genToken
      simp [htok]
    have hr := runMain_eq_storeStage cfg env hx _ _ hg
    rw [hr, storeStage_trace]
    refine ⟨?_, ?_, ?_⟩
    · simp only [List.countP_append, dnsStage_countP_tokenGen, hauth]
      rcases h2 : cfg.options.rootTLD <;>
        simp [h2, isTokenGen, List.countP_cons, List.countP_nil]
    · simp [hauth]
    · rw [storeStage_store]
      refine ⟨_, rfl, ?_⟩
      have := startupStore_lookup_token cfg
        { applyHostmasterDefault cfg.options with token := cfg.options.token }
      simp only [hauth]
      simpa using this

theorem token_generation_witness :
    (baseOptions.token = "" → baseEnv.randOk = true →
      ((runMain { baseConfig with options := { baseOptions with template := true } }
          baseEnv).trace.countP isTokenGen = 1 ∧
        Event.tokenGenerated (hexEncodeToString (randBytes32 baseEnv)) ∈
          (runMain { baseConfig with options := { baseOptions with template := true } }
            baseEnv).trace ∧
        (hexEncodeToString (randBytes32 baseEnv)).length = 64 ∧
        Event.setID (hexEncodeToString (randBytes32 baseEnv)) ∈
          (runMain { baseConfig with options := { baseOptions with template := true } }
            baseEnv).trace ∧
        (∃ st, (runMain { baseConfig with options := { baseOptions with template := true } }
            baseEnv).store = some st ∧
          st.lookup (hexEncodeToString (randBytes32 baseEnv)) = some none))) ∧
    (baseOptions.token ≠ "" →
      ((runMain { baseConfig with options := { baseOptions with template := true } }
          baseEnv).trace.countP isTokenGen = 0 ∧
        Event.setID baseOptions.token ∈
          (runMain { baseConfig with options := { baseOptions with template := true } }
            baseEnv).trace ∧
        (∃ st, (runMain { baseConfig with options := { baseOptions with template := true } }
            baseEnv).store = some st ∧
          st.lookup baseOptions.token = some none))) :=
  token_generation { baseConfig with options := { baseOptions with template := true } }
    baseEnv (by decide) (by decide)

/-- C5: when certificate provisioning fails, the process does not exit: the
failure is reported as a warning and the HTTP and SMTP listeners are
still created and started with a nil TLS handle; with the remaining
constructors succeeding the run reaches the signal-wait state. -/
theorem acme_failure_nonfatal (cfg : Config) (env : Env)
    (hx : (cfg.responder && cfg.smb) = false) (hrand : env.randOk = true)
    (hdns : env.dnsOk = true) (hskip : cfg.skipacme = false)
    (hacme : env.acmeOk = false) (hhttp : env.httpOk = true)
    (hsmtp : env.smtpOk = true)
    (hresp : cfg.responder = true → env.responderOk = true)
    (hsmb : cfg.smb = true → env.smbOk = true) :
    (runMain cfg env).outcome = Outcome.running ∧
      Event.httpListen none ∈ (runMain cfg env).trace ∧
      Event.smtpListen none ∈ (runMain cfg env).trace ∧
      Event.warning "Could not generate certs for auto TLS, https will be disabled" ∈
        (runMain cfg env).trace := by
  have hg := genToken_eq (shouldEnableAuth cfg.options cfg.smb cfg.responder)
    cfg.options.token env hrand
  have hr := runMain_eq_storeStage cfg env hx _ _ hg
  refine ⟨?_, ?_⟩
  · rw [runMain_outcome cfg env hx]
    have hc : fatalCond cfg env = false := by
      unfold fatalCond
      rcases h1 : cfg.responder <;> rcases h2 : cfg.smb <;>
        simp_all [hrand, hdns, hhttp, hsmtp]
    simp [hc]
  · rw [hr, storeStage_trace,
      dnsStage_trace_acmefail cfg env _ _ hdns hskip hacme hhttp hsmtp]
    simp

theorem acme_failure_nonfatal_witness :
    (runMain baseConfig { baseEnv with acmeOk := false }).outcome = Outcome.running ∧
      Event.httpListen none ∈ (runMain baseConfig { baseEnv with acmeOk := false }).trace ∧
      Event.smtpListen none ∈ (runMain baseConfig { baseEnv with acmeOk := false }).trace ∧
      Event.warning "Could not generate certs for auto TLS, https will be disabled" ∈
        (runMain baseConfig { baseEnv with acmeOk := false }).trace :=
  acme_failure_nonfatal baseConfig { baseEnv with acmeOk := false }
    rfl rfl rfl rfl rfl rfl rfl (fun h => by cases h) (fun h => by cases h)

/-- C6: with root-TLD mode active, startup registers in the Store — before
any listener is started — a bucket whose id is the bare configured domain
and which carries no auth token: among the listener-start events and the
registrations of the domain id, the first one on the trace is the domain
registration, and the final Store maps the domain to a token-less bucket. -/
theorem roottld_singleton (cfg : Config) (env : Env)
    (hroot : cfg.options.rootTLD = true)
    (hx : (cfg.responder && cfg.smb) = false) (hrand : env.randOk = true) :
    ((runMain cfg env).trace.filter (listenOrDomainReg cfg.options.domain)).head? =
      some (Event.setID cfg.options.domain) ∧
      (∃ st, (runMain cfg env).store = some st ∧
        st.lookup cfg.options.domain = some none) := by
  have hauth : shouldEnableAuth cfg.options cfg.smb cfg.responder = true := by
    unfold shouldEnableAuth
    simp [hroot]
  have hg := genToken_eq (shouldEnableAuth cfg.options cfg.smb cfg.responder)
    cfg.options.token env hrand
  have hr := runMain_eq_storeStage cfg env hx _ _ hg
  constructor
  · rw [hr, storeStage_trace]
    simp only [List.filter_append]
    rw [List.head?_append, List.head?_append, List.head?_append, List.head?_append]
    rcases htok : shouldEnableAuth cfg.options cfg.smb cfg.responder
        && (cfg.options.token == "")
    · by_cases hd : cfg.options.token = cfg.options.domain <;>
        simp [htok, hauth, hroot, listenOrDomainReg, isListen, hd]
    · by_cases hd : hexEncodeToString (randBytes32 env) = cfg.options.domain <;>
        simp [htok, hauth, hroot, listenOrDomainReg, isListen, hd]
  · rw [hr, storeStage_store]
    refine ⟨_, rfl, ?_⟩
    have := startupStore_lookup_domain cfg
      { applyHostmasterDefault cfg.options with
          token := if shouldEnableAuth cfg.options cfg.smb cfg.responder
              && (cfg.options.token == "") then
            hexEncodeToString (randBytes32 env) else cfg.options.token }
      (shouldEnableAuth cfg.options cfg.smb cfg.responder) (by simpa using hroot)
    simpa using this

theorem roottld_singleton_witness :
    ((runMain { baseConfig with options := { baseOptions with rootTLD := true } }
          baseEnv).trace.filter (listenOrDomainReg "example.com")).head? =
      some (Event.setID "example.com") ∧
      (∃ st, (runMain { baseConfig with options := { baseOptions with rootTLD := true } }
          baseEnv).store = some st ∧
        st.lookup "example.com" = some none) :=
  roottld_singleton { baseConfig with options := { baseOptions with rootTLD := true } }
    baseEnv rfl rfl rfl

/-- C10: an empty hostmaster is replaced by admin@ followed by the
configured domain before startup proceeds, and every ACME coordinator
creation uses exactly that resolved hostmaster; a non-empty hostmaster is
left unchanged. -/
theorem hostmaster_defaulting (cfg : Config) (env : Env) :
    ((applyHostmasterDefault cfg.options).hostmaster =
        if cfg.options.hostmaster = "" then "admin@" ++ cfg.options.domain
        else cfg.options.hostmaster) ∧
      (cfg.options.hostmaster ≠ "" → applyHostmasterDefault cfg.options = cfg.options) ∧
      (∀ hm d, Event.acmeCreated hm d ∈ (runMain cfg env).trace →
        hm = (applyHostmasterDefault cfg.options).hostmaster) := by
  refine ⟨?_, ?_, ?_⟩
  · by_cases h : cfg.options.hostmaster = "" <;> simp [applyHostmasterDefault, h]
  · intro h
    simp [applyHostmasterDefault, h]
  · intro hm d he
    exact (acmeCreated_mem_runMain cfg env hm d he).1

theorem hostmaster_defaulting_witness :
    ((applyHostmasterDefault baseConfig.options).hostmaster =
        if baseConfig.options.hostmaster = "" then "admin@" ++ baseConfig.options.domain
        else baseConfig.options.hostmaster) ∧
      "admin@example.com" = (applyHostmasterDefault baseConfig.options).hostmaster :=
  ⟨(hostmaster_defaulting baseConfig baseEnv).1,
    (hostmaster_defaulting baseConfig baseEnv).2.2 "admin@example.com"
      (acmeDomains "example.com") (by decide)⟩

theorem responder_smb_mutual_exclusion_witness :
    runMain { baseConfig with responder := true, smb := true } baseEnv =
        ⟨[Event.printError], Outcome.exited 1, none⟩ ∧
      (runMain { baseConfig with responder := true, smb := true } baseEnv).store = none ∧
      (∀ e ∈ (runMain { baseConfig with responder := true, smb := true } baseEnv).trace,
        isListen e = false ∧ isStoreCreated e = false) :=
  responder_smb_mutual_exclusion _ baseEnv rfl rfl
